import Mathlib

/-!
Shallow embedding of the Integration Health & Execution Monitoring core of
the n8n dashboard module: the `IntegrationStatus` health aggregator, the
`ExecutionMonitor` execution feed, and the `WorkflowStatusPanel` action
dispatcher, translated from the React/TypeScript source.  Backend responses
and the clock are passed as explicit arguments; each handler returns the new
component state together with the list of backend requests it issued.
-/

namespace NkzModule

/-- Health status values of an integration, from the `Integration` interface. -/
inductive HealthStatus where
  | healthy
  | degraded
  | unhealthy
  | unknown
deriving DecidableEq

/-- One element of the `GET /health/integrations` response array
(`IntegrationHealth`): `id`, `status`, optional `latency`. -/
structure HealthEntry where
  id : String
  status : HealthStatus
  latency : Option Nat
deriving DecidableEq

/-- One entry of the `integrations` state of `IntegrationStatus`
(the render-only `icon` field is omitted). -/
structure Integration where
  id : String
  name : String
  status : HealthStatus
  latency : Option Nat
deriving DecidableEq

/-- The statically registered integrations, as initialised in the
`useState` call of `IntegrationStatus`: six descriptors, all `unknown`. -/
def initialIntegrations : List Integration :=
  [⟨"n8n", "n8n", .unknown, none⟩,
   ⟨"sentinel", "NDVI", .unknown, none⟩,
   ⟨"intelligence", "AI", .unknown, none⟩,
   ⟨"notifications", "Alerts", .unknown, none⟩,
   ⟨"odoo", "ERP", .unknown, none⟩,
   ⟨"ros2", "Robots", .unknown, none⟩]

/-- The mutable state of `IntegrationStatus` relevant to health polling. -/
structure HealthState where
  integrations : List Integration
  loading : Bool
deriving DecidableEq

/-- The per-descriptor update performed inside `setIntegrations` on a
successful `getIntegrationsHealth` call: look the descriptor up in the
response by `id`; found ⇒ take the reported status and latency, absent ⇒
`status = unknown` and no latency (`health?.status || 'unknown'`,
`health?.latency`). -/
def updateIntegration (healthData : List HealthEntry) (integration : Integration) :
    Integration :=
  match healthData.find? (fun h => h.id == integration.id) with
  | some h => { integration with status := h.status, latency := h.latency }
  | none => { integration with status := .unknown, latency := none }

/-- The catch branch of `checkHealth`: every descriptor is set to `unknown`
(latency is left as it was). -/
def setAllUnknown (integration : Integration) : Integration :=
  { integration with status := .unknown }

/-- `checkHealth` of `IntegrationStatus`.  `response = some healthData`
models a successful `getIntegrationsHealth` call, `none` a thrown error.
Returns the new state and whether a backend call was issued; when not
authenticated the function returns at once, issuing no call. -/
def checkHealth (isAuthenticated : Bool) (response : Option (List HealthEntry))
    (s : HealthState) : HealthState × Bool :=
  if isAuthenticated then
    match response with
    | some healthData =>
        ({ integrations := s.integrations.map (updateIntegration healthData),
           loading := false }, true)
    | none =>
        ({ integrations := s.integrations.map setAllUnknown,
           loading := false }, true)
  else (s, false)

/-- `setInterval` handle: a recurring timer started at `start` firing every
`periodMs` milliseconds. -/
structure IntervalHandle where
  start : Nat
  periodMs : Nat
deriving DecidableEq

/-- The times at which a `setInterval` timer fires: `start + periodMs * (k+1)`. -/
def IntervalHandle.fires (h : IntervalHandle) (t : Nat) : Prop :=
  ∃ k : Nat, t = h.start + h.periodMs * (k + 1)

/-- `IntegrationStatus` poll interval: `setInterval(checkHealth, 60000)`. -/
def healthIntervalMs : Nat := 60000

/-- `ExecutionMonitor` poll interval: `setInterval(fetchExecutions, 10000)`. -/
def feedIntervalMs : Nat := 10000

/-- `IntegrationStatus` as a component: its state plus its interval timer. -/
structure HealthComponent where
  state : HealthState
  timer : Option IntervalHandle
deriving DecidableEq

/-- The `useEffect` body of `IntegrationStatus` (run on mount and whenever
`isAuthenticated` changes, at time `t`): call `checkHealth` once at once and
start a 60000 ms interval. -/
def runHealthEffect (isAuthenticated : Bool) (response : Option (List HealthEntry))
    (t : Nat) (c : HealthComponent) : HealthComponent :=
  { state := (checkHealth isAuthenticated response c.state).1,
    timer := some ⟨t, healthIntervalMs⟩ }

/-- The refresh button of `IntegrationStatus`: its `onClick` only calls
`checkHealth()`; it does not touch the interval timer. -/
def manualHealthRefresh (isAuthenticated : Bool) (response : Option (List HealthEntry))
    (c : HealthComponent) : HealthComponent :=
  { c with state := (checkHealth isAuthenticated response c.state).1 }

/-- One item of the `executions` state of `ExecutionMonitor`
(`ExecutionItem`); `startedAt` is the ISO timestamp as epoch milliseconds. -/
structure ExecutionItem where
  id : String
  workflowId : String
  workflowName : String
  status : String
  startedAt : Int
  duration : Option Nat
  mode : String
deriving DecidableEq

/-- The hard-coded `mockExecutions` array built inside `fetchExecutions`,
with `now` standing for `Date.now()`. -/
def mockExecutions (now : Int) : List ExecutionItem :=
  [⟨"1", "wf-1", "NDVI Alert Pipeline", "success", now - 5 * 60 * 1000, some 3200, "trigger"⟩,
   ⟨"2", "wf-2", "Production Prediction", "running", now - 2 * 60 * 1000, none, "webhook"⟩,
   ⟨"3", "wf-3", "Pest Detection", "success", now - 15 * 60 * 1000, some 8500, "cron"⟩,
   ⟨"4", "wf-1", "NDVI Alert Pipeline", "error", now - 30 * 60 * 1000, some 1200, "trigger"⟩,
   ⟨"5", "wf-4", "Risk Notifications", "success", now - 60 * 60 * 1000, some 4500, "cron"⟩]

/-- The predicate applied to the list before `setExecutions`:
`filter === 'all' || e.status === filter`. -/
def matchesFilter (filterValue : String) (e : ExecutionItem) : Bool :=
  filterValue == "all" || e.status == filterValue

/-- The query parameters of a `getExecutions` call:
`status: filter !== 'all' ? filter : undefined`, `limit: expanded ? 50 : 10`. -/
structure ExecRequest where
  status : Option String
  limit : Nat
deriving DecidableEq

/-- Builds the `getExecutions` request from the captured filter and the
expanded flag. -/
def execRequest (filterValue : String) (expanded : Bool) : ExecRequest :=
  ⟨if filterValue ≠ "all" then some filterValue else none,
   if expanded then 50 else 10⟩

/-- Outcome of an `api.getExecutions` call: a successful response carrying
the backend execution records, or a thrown error with its (possibly absent)
`message`. -/
inductive ExecResponse where
  | ok (executions : List ExecutionItem)
  | err (message : Option String)
deriving DecidableEq

/-- The fallback text of `setError(err.message || 'Failed to load executions')`. -/
def feedFallbackError : String := "Failed to load executions"

/-- JavaScript `err.message || fallback`: an absent or empty message falls
back to the default text. -/
def errMessageText (message : Option String) : String :=
  match message with
  | some m => if m = "" then feedFallbackError else m
  | none => feedFallbackError

/-- The mutable state of `ExecutionMonitor` written by `fetchExecutions`. -/
structure FeedState where
  executions : List ExecutionItem
  loading : Bool
  error : Option String
deriving DecidableEq

/-- `fetchExecutions` of `ExecutionMonitor`.  `filterValue` and `expanded`
are the values captured by the closure when the fetch was started; `now` is
`Date.now()` at response time; `response` the outcome of the `getExecutions`
call.  On success the backend data is discarded and the window is set to the
filtered mock list, the error is cleared; on failure the error message is
stored and the window left as it is.  Returns the new state and the backend
requests issued; when not authenticated the function returns at once. -/
def fetchExecutions (isAuthenticated : Bool) (filterValue : String) (expanded : Bool)
    (now : Int) (response : ExecResponse) (s : FeedState) : FeedState × List ExecRequest :=
  if isAuthenticated then
    match response with
    | .ok _ =>
        ({ executions := (mockExecutions now).filter (matchesFilter filterValue),
           loading := false, error := none }, [execRequest filterValue expanded])
    | .err m =>
        ({ s with error := some (errMessageText m), loading := false },
         [execRequest filterValue expanded])
  else (s, [])

/-- A response arriving for a fetch that was started earlier: the filter and
expanded flag its closure captured at request time, the clock at arrival, and
the backend outcome.  The source has no generation tag or abort signal, so
every arrival is applied to the state. -/
structure FetchArrival where
  capturedFilter : String
  capturedExpanded : Bool
  now : Int
  response : ExecResponse
deriving DecidableEq

/-- Applying one arriving response: exactly the state update `fetchExecutions`
performs with its captured values. -/
def applyArrival (isAuthenticated : Bool) (s : FeedState) (a : FetchArrival) : FeedState :=
  (fetchExecutions isAuthenticated a.capturedFilter a.capturedExpanded a.now a.response s).1

/-- Applying a sequence of responses in arrival order. -/
def applyArrivals (isAuthenticated : Bool) (s : FeedState) (arrivals : List FetchArrival) :
    FeedState :=
  arrivals.foldl (applyArrival isAuthenticated) s

/-- `ExecutionMonitor` as a component: fetch state, the `filter`, `expanded`
and `autoRefresh` flags, and its interval timer. -/
structure FeedComponent where
  state : FeedState
  filterValue : String
  expanded : Bool
  autoRefresh : Bool
  timer : Option IntervalHandle
deriving DecidableEq

/-- The `useEffect` body of `ExecutionMonitor` (deps `[isAuthenticated,
filter, expanded, autoRefresh]`), run at time `t`: fetch once at once, then
start a 10000 ms interval if and only if `autoRefresh` is on (the previous
timer was cleared by the effect cleanup). -/
def runFeedEffect (isAuthenticated : Bool) (t : Nat) (now : Int)
    (response : ExecResponse) (c : FeedComponent) : FeedComponent :=
  { c with
    state := (fetchExecutions isAuthenticated c.filterValue c.expanded now response c.state).1,
    timer := if c.autoRefresh then some ⟨t, feedIntervalMs⟩ else none }

/-- The auto-refresh toggle button: `setAutoRefresh(!autoRefresh)` flips the
flag, which re-runs the feed effect. -/
def toggleAutoRefresh (isAuthenticated : Bool) (t : Nat) (now : Int)
    (response : ExecResponse) (c : FeedComponent) : FeedComponent :=
  runFeedEffect isAuthenticated t now response { c with autoRefresh := !c.autoRefresh }

/-- The two periodic components side by side, as mounted by the module. -/
structure AppComponents where
  health : HealthComponent
  feed : FeedComponent
deriving DecidableEq

/-- Toggling the feed auto-refresh flag in the mounted module: `autoRefresh`
is local state of `ExecutionMonitor`, so only the feed effect re-runs. -/
def appToggleAutoRefresh (isAuthenticated : Bool) (t : Nat) (now : Int)
    (response : ExecResponse) (app : AppComponents) : AppComponents :=
  { app with feed := toggleAutoRefresh isAuthenticated t now response app.feed }

/-- One workflow of the `getWorkflows` response (`N8nWorkflow`, the fields
`WorkflowStatusPanel` reads). -/
structure RawWorkflow where
  id : String
  name : String
  active : Bool
deriving DecidableEq

/-- One entry of the `workflows` state of `WorkflowStatusPanel`
(`WorkflowSummary`; `lastExecution` is always left undefined by the source
and is omitted). -/
structure WorkflowSummary where
  id : String
  name : String
  active : Bool
  relatedToEntity : Bool
deriving DecidableEq

/-- `needle` occurs as a contiguous run of `hay` (the empty needle always
occurs). -/
def charsInclude (needle : List Char) : List Char → Bool
  | [] => needle.isEmpty
  | c :: tl => needle.isPrefixOf (c :: tl) || charsInclude needle tl

/-- JavaScript `s.toLowerCase()`, as the lower-cased character list. -/
def jsToLower (s : String) : List Char :=
  s.toList.map Char.toLower

/-- `w.name.toLowerCase().includes(selectedEntityType?.toLowerCase() || '')`. -/
def relatedTo (selectedEntityType : Option String) (name : String) : Bool :=
  charsInclude (jsToLower (selectedEntityType.getD "")) (jsToLower name)

/-- The summary built from a raw workflow in `executeWorkflow`'s refresh. -/
def toSummary (selectedEntityType : Option String) (w : RawWorkflow) : WorkflowSummary :=
  ⟨w.id, w.name, w.active, relatedTo selectedEntityType w.name⟩

/-- The mutable state of `WorkflowStatusPanel`. -/
structure PanelState where
  workflows : List WorkflowSummary
  loading : Bool
  error : Option String
deriving DecidableEq

/-- The acknowledgment a backend action resolves with (e.g. the
`N8nExecution` of `POST /n8n/workflows/:id/execute`, or a job id). -/
structure Ack where
  ackId : String
deriving DecidableEq

/-- A backend call issued by `WorkflowStatusPanel`, plus the refresh signal
to the Execution Feed that the spec describes; the source never emits the
latter, it is listed so its absence can be stated. -/
inductive ApiCall where
  | executeWorkflow (workflowId : String) (entityId : String) (entityType : Option String)
  | getWorkflows
  | requestAnalysis (parcelId : String)
  | requestPrediction (entityId : String) (entityType : String)
  | refreshExecutionFeed
deriving DecidableEq

/-- The fallback text of `setError(err.message || 'Failed to execute workflow')`. -/
def panelFallbackError : String := "Failed to execute workflow"

/-- JavaScript `err.message || 'Failed to execute workflow'`. -/
def panelErrText (message : Option String) : String :=
  match message with
  | some m => if m = "" then panelFallbackError else m
  | none => panelFallbackError

/-- `executeWorkflow` of `WorkflowStatusPanel`.  Guarded on a selected
entity; on a successful `api.executeWorkflow` the acknowledgment is
discarded, `loading` is set and the panel re-fetches its own workflow list
(`listResult`; `response.workflows` may be absent, hence the inner
`Option`); a failure of either await lands in the single catch, which only
sets the error text.  Returns the new state, the calls issued and the value
handed back to the caller — the source returns nothing, so it is always
`none`. -/
def executeWorkflowAction (selectedEntityId : Option String)
    (selectedEntityType : Option String)
    (execResult : Except (Option String) Ack)
    (listResult : Except (Option String) (Option (List RawWorkflow)))
    (workflowId : String) (s : PanelState) :
    PanelState × List ApiCall × Option Ack :=
  match selectedEntityId with
  | none => (s, [], none)
  | some entityId =>
    match execResult with
    | .error m =>
        ({ s with error := some (panelErrText m) },
         [.executeWorkflow workflowId entityId selectedEntityType], none)
    | .ok _ =>
      match listResult with
      | .error m =>
          ({ s with loading := true, error := some (panelErrText m) },
           [.executeWorkflow workflowId entityId selectedEntityType, .getWorkflows], none)
      | .ok workflowsField =>
          ({ workflows := (workflowsField.getD []).map (toSummary selectedEntityType),
             loading := false, error := s.error },
           [.executeWorkflow workflowId entityId selectedEntityType, .getWorkflows], none)

/-- The NDVI Analysis quick action: `onClick` fires `api.requestAnalysis`
and does nothing else — no state change, no refresh, result discarded. -/
def requestAnalysisAction (selectedEntityId : String) (s : PanelState) :
    PanelState × List ApiCall × Option Ack :=
  (s, [.requestAnalysis selectedEntityId], none)

/-- The Predict quick action: `onClick` fires `api.requestPrediction` and
does nothing else. -/
def requestPredictionAction (selectedEntityId selectedEntityType : String)
    (s : PanelState) : PanelState × List ApiCall × Option Ack :=
  (s, [.requestPrediction selectedEntityId selectedEntityType], none)

/-- What `IntegrationStatus` renders: `null` when not authenticated
(`if (!isAuthenticated) return null`), otherwise the integrations list. -/
def renderIntegrationStatus (isAuthenticated : Bool) (s : HealthState) :
    Option (List Integration) :=
  if isAuthenticated then some s.integrations else none

/-- What `ExecutionMonitor` renders. -/
inductive MonitorRender where
  | loginRequired
  | timeline (executions : List ExecutionItem) (error : Option String)
deriving DecidableEq

/-- `ExecutionMonitor`'s render: a login-required card without any execution
data when not authenticated, otherwise the timeline over its state. -/
def renderExecutionMonitor (isAuthenticated : Bool) (s : FeedState) : MonitorRender :=
  if isAuthenticated then .timeline s.executions s.error else .loginRequired

/-- The per-descriptor health update never changes the descriptor identity. -/
theorem updateIntegration_id (healthData : List HealthEntry) (i : Integration) :
    (updateIntegration healthData i).id = i.id := by
  unfold updateIntegration
  cases healthData.find? (fun h => h.id == i.id) <;> rfl

/-- A descriptor's health update depends only on its own lookup in the
response. -/
theorem updateIntegration_eq_of_find (hd1 hd2 : List HealthEntry) (i : Integration)
    (h12 : hd1.find? (fun h => h.id == i.id) = hd2.find? (fun h => h.id == i.id)) :
    updateIntegration hd1 i = updateIntegration hd2 i := by
  unfold updateIntegration
  rw [h12]

/-- C2: in the initial state and after every poll — successful, partial or
failed — the snapshot has exactly one entry per registered descriptor (the
descriptor ids are exactly those registered, in order); a descriptor with no
result in the response is `unknown`; a failed poll leaves every descriptor
`unknown`, never absent; and for a registry of n8n and sentinel with a
response reporting only n8n healthy at 42 ms, the snapshot maps n8n to
healthy/42 and sentinel to unknown. -/
theorem healthSnapshotTotal (isAuthenticated : Bool)
    (response : Option (List HealthEntry)) (healthData : List HealthEntry)
    (s : HealthState) :
    (((checkHealth isAuthenticated response s).1).integrations.map Integration.id
        = s.integrations.map Integration.id)
    ∧ (∀ j ∈ ((checkHealth true (some healthData) s).1).integrations,
        healthData.find? (fun h => h.id == j.id) = none → j.status = .unknown)
    ∧ (∀ j ∈ ((checkHealth true none s).1).integrations, j.status = .unknown)
    ∧ ((initialIntegrations.map Integration.id).Nodup
        ∧ ∀ i ∈ initialIntegrations, i.status = .unknown)
    ∧ (checkHealth true (some [⟨"n8n", .healthy, some 42⟩])
        ⟨[⟨"n8n", "n8n", .unknown, none⟩, ⟨"sentinel", "NDVI", .unknown, none⟩], false⟩
      = (⟨[⟨"n8n", "n8n", .healthy, some 42⟩,
           ⟨"sentinel", "NDVI", .unknown, none⟩], false⟩, true)) := by
  refine ⟨?_, ?_, ?_, by decide, by decide⟩
  · cases isAuthenticated with
    | false => rfl
    | true =>
      cases response with
      | none =>
        show (s.integrations.map setAllUnknown).map Integration.id = _
        rw [List.map_map]
        exact List.map_congr_left (fun i _ => rfl)
      | some hd =>
        show (s.integrations.map (updateIntegration hd)).map Integration.id = _
        rw [List.map_map]
        exact List.map_congr_left (fun i _ => updateIntegration_id hd i)
  · intro j hj hfind
    simp only [checkHealth, if_true] at hj
    obtain ⟨i, hi, rfl⟩ := List.mem_map.mp hj
    simp only [updateIntegration_id] at hfind
    simp [updateIntegration, hfind]
  · intro j hj
    simp only [checkHealth, if_true] at hj
    obtain ⟨i, hi, rfl⟩ := List.mem_map.mp hj
    rfl

/-- Witness for C2: instantiating the unknown-by-default conjunct at the
registered n8n descriptor and the empty response. -/
theorem healthSnapshotTotal_witness :
    (⟨"n8n", "n8n", HealthStatus.unknown, none⟩ : Integration).status
      = HealthStatus.unknown := by
  have h := (healthSnapshotTotal true (some []) [] ⟨initialIntegrations, false⟩).2.1
  exact h ⟨"n8n", "n8n", HealthStatus.unknown, none⟩ (by decide) (by decide)

/-- C3: in a poll cycle where some descriptors obtain no result, each
descriptor's published entry depends only on its own lookup in the response
(the failures of others cannot affect it); a descriptor with a result gets
exactly the reported status and latency; a descriptor without one gets
`unknown`; and the cycle publishes an entry at every registered position. -/
theorem partialFailureIsolated (s : HealthState) (hd1 hd2 : List HealthEntry)
    (k : Nat) (i : Integration) (hk : s.integrations.get? k = some i) :
    (hd1.find? (fun h => h.id == i.id) = hd2.find? (fun h => h.id == i.id) →
      ((checkHealth true (some hd1) s).1).integrations.get? k
        = ((checkHealth true (some hd2) s).1).integrations.get? k)
    ∧ (∀ h, hd1.find? (fun x => x.id == i.id) = some h →
        ((checkHealth true (some hd1) s).1).integrations.get? k
          = some { i with status := h.status, latency := h.latency })
    ∧ (hd1.find? (fun x => x.id == i.id) = none →
        ((checkHealth true (some hd1) s).1).integrations.get? k
          = some { i with status := HealthStatus.unknown, latency := none })
    ∧ ((checkHealth true (some hd1) s).1).integrations.length
        = s.integrations.length := by
  refine ⟨?_, ?_, ?_, ?_⟩
  · intro h12
    simp only [checkHealth, if_true, List.get?_map, hk, Option.map_some']
    exact congrArg some (updateIntegration_eq_of_find hd1 hd2 i h12)
  · intro h hfind
    simp only [checkHealth, if_true, List.get?_map, hk, Option.map_some']
    simp [updateIntegration, hfind]
  · intro hfind
    simp only [checkHealth, if_true, List.get?_map, hk, Option.map_some']
    simp [updateIntegration, hfind]
  · simp [checkHealth]

/-- Witness for C3: a registry of n8n and sentinel where only n8n reports
(healthy, 42 ms) and sentinel obtains no result. -/
theorem partialFailureIsolated_witness :
    ((checkHealth true (some [⟨"n8n", HealthStatus.healthy, some 42⟩])
        ⟨[⟨"n8n", "n8n", .unknown, none⟩, ⟨"sentinel", "NDVI", .unknown, none⟩],
         false⟩).1).integrations.get? 0
      = some ⟨"n8n", "n8n", HealthStatus.healthy, some 42⟩
    ∧ ((checkHealth true (some [⟨"n8n", HealthStatus.healthy, some 42⟩])
        ⟨[⟨"n8n", "n8n", .unknown, none⟩, ⟨"sentinel", "NDVI", .unknown, none⟩],
         false⟩).1).integrations.get? 1
      = some ⟨"sentinel", "NDVI", HealthStatus.unknown, none⟩ := by
  constructor
  · exact (partialFailureIsolated ⟨[⟨"n8n", "n8n", .unknown, none⟩,
      ⟨"sentinel", "NDVI", .unknown, none⟩], false⟩
      [⟨"n8n", HealthStatus.healthy, some 42⟩] [] 0
      ⟨"n8n", "n8n", .unknown, none⟩ (by decide)).2.1
      ⟨"n8n", HealthStatus.healthy, some 42⟩ (by decide)
  · exact (partialFailureIsolated ⟨[⟨"n8n", "n8n", .unknown, none⟩,
      ⟨"sentinel", "NDVI", .unknown, none⟩], false⟩
      [⟨"n8n", HealthStatus.healthy, some 42⟩] [] 1
      ⟨"sentinel", "NDVI", .unknown, none⟩ (by decide)).2.2.1 (by decide)

/-- C1, counterexample: with the filter changed to "error" while a fetch
captured under "all" is still in flight, and the newer request's response
arriving first, the stale "all" response is applied afterwards: the exposed
window ends as the all-filtered list, not the window of the most recently
requested fetch.  The source has no generation tag or cancellation, so a
response of a superseded request is applied whenever it arrives last. -/
theorem staleResponseOverwritesWindow :
    ((applyArrivals true ⟨[], false, none⟩
        [⟨"error", false, 3600000, .ok []⟩, ⟨"all", false, 3600000, .ok []⟩]).executions
      = (mockExecutions 3600000).filter (matchesFilter "all"))
    ∧ ((applyArrivals true ⟨[], false, none⟩
        [⟨"error", false, 3600000, .ok []⟩, ⟨"all", false, 3600000, .ok []⟩]).executions
      ≠ (mockExecutions 3600000).filter (matchesFilter "error")) := by
  decide

/-- C1, amended: the Execution Feed applies the result of every fetch at
response arrival, so the exposed window after a burst of in-flight fetches
is the one of the last-arriving successful response — last-arrival-wins
rather than latest-request-wins. -/
theorem lastArrivalDeterminesWindow (s : FeedState) (arrivals : List FetchArrival)
    (a : FetchArrival) (execs : List ExecutionItem) (h : a.response = .ok execs) :
    (applyArrivals true s (arrivals ++ [a])).executions
      = (mockExecutions a.now).filter (matchesFilter a.capturedFilter) := by
  have hsplit : applyArrivals true s (arrivals ++ [a])
      = applyArrival true (applyArrivals true s arrivals) a := by
    simp [applyArrivals, List.foldl_append]
  rw [hsplit]
  simp [applyArrival, fetchExecutions, h]

/-- Witness for the amended C1: the stale "all" response arriving after the
"error" response determines the window. -/
theorem lastArrivalDeterminesWindow_witness :
    (applyArrivals true ⟨[], false, none⟩
        [⟨"error", false, 3600000, .ok []⟩, ⟨"all", false, 3600000, .ok []⟩]).executions
      = (mockExecutions 3600000).filter (matchesFilter "all") :=
  lastArrivalDeterminesWindow ⟨[], false, none⟩ [⟨"error", false, 3600000, .ok []⟩]
    ⟨"all", false, 3600000, .ok []⟩ [] rfl

/-- C4, counterexample: a successful execute-workflow dispatch issues the
execute call and a workflows re-fetch, never a refresh of the Execution
Feed, and hands no acknowledgment back to the caller — against the claim
that it refreshes the Execution Feed and returns the backend's
acknowledgment. -/
theorem dispatchSuccessNoFeedRefresh :
    ((executeWorkflowAction (some "parcel-1") (some "parcel") (.ok ⟨"exec-77"⟩)
        (.ok (some [⟨"wf-1", "Parcel Pipeline", true⟩])) "wf-1" ⟨[], false, none⟩).2.1
      = [.executeWorkflow "wf-1" "parcel-1" (some "parcel"), .getWorkflows])
    ∧ (ApiCall.refreshExecutionFeed ∉
        (executeWorkflowAction (some "parcel-1") (some "parcel") (.ok ⟨"exec-77"⟩)
          (.ok (some [⟨"wf-1", "Parcel Pipeline", true⟩])) "wf-1" ⟨[], false, none⟩).2.1)
    ∧ ((executeWorkflowAction (some "parcel-1") (some "parcel") (.ok ⟨"exec-77"⟩)
        (.ok (some [⟨"wf-1", "Parcel Pipeline", true⟩])) "wf-1" ⟨[], false, none⟩).2.2
      = none) := by
  decide

/-- C4, amended: on backend success the dispatcher re-fetches the panel's
own workflows list (not the Execution Feed) and discards the acknowledgment;
on backend failure it stores the error text in the panel's error state,
leaves the cached workflows unchanged and performs no refresh; the analysis
and prediction quick actions fire their call and change nothing else. -/
theorem dispatchRefreshesWorkflowsOnly (entityId : String) (entityType : Option String)
    (a : Ack) (wfs : List RawWorkflow) (message : Option String)
    (workflowId ptype : String) (s : PanelState) :
    ((executeWorkflowAction (some entityId) entityType (.ok a) (.ok (some wfs))
        workflowId s).2.1
      = [.executeWorkflow workflowId entityId entityType, .getWorkflows])
    ∧ ((executeWorkflowAction (some entityId) entityType (.ok a) (.ok (some wfs))
        workflowId s).1.workflows = wfs.map (toSummary entityType))
    ∧ (ApiCall.refreshExecutionFeed ∉
        (executeWorkflowAction (some entityId) entityType (.ok a) (.ok (some wfs))
          workflowId s).2.1)
    ∧ ((executeWorkflowAction (some entityId) entityType (.ok a) (.ok (some wfs))
        workflowId s).2.2 = none)
    ∧ ((executeWorkflowAction (some entityId) entityType (.error message) (.ok none)
        workflowId s).1.workflows = s.workflows)
    ∧ ((executeWorkflowAction (some entityId) entityType (.error message) (.ok none)
        workflowId s).1.error = some (panelErrText message))
    ∧ ((executeWorkflowAction (some entityId) entityType (.error message) (.ok none)
        workflowId s).2.1 = [.executeWorkflow workflowId entityId entityType])
    ∧ ((requestAnalysisAction entityId s).1 = s
        ∧ (requestAnalysisAction entityId s).2.2 = none
        ∧ ApiCall.refreshExecutionFeed ∉ (requestAnalysisAction entityId s).2.1)
    ∧ ((requestPredictionAction entityId ptype s).1 = s
        ∧ (requestPredictionAction entityId ptype s).2.2 = none
        ∧ ApiCall.refreshExecutionFeed ∉ (requestPredictionAction entityId ptype s).2.1) := by
  refine ⟨rfl, rfl, ?_, rfl, rfl, rfl, rfl, ⟨rfl, rfl, ?_⟩, ⟨rfl, rfl, ?_⟩⟩
  · simp [executeWorkflowAction]
  · simp [requestAnalysisAction]
  · simp [requestPredictionAction]

/-- C5, counterexample: the refresh button only calls `checkHealth`; the
interval timer started at 0 with a 60000 ms period is untouched by a manual
refresh at 59000 and fires at 60000, only 1000 ms after the manual refresh —
sooner than one full interval, so the schedule is not reset. -/
theorem manualRefreshDoubleFire :
    ((manualHealthRefresh true (some [])
        ⟨⟨initialIntegrations, false⟩, some ⟨0, healthIntervalMs⟩⟩).timer
      = some ⟨0, healthIntervalMs⟩)
    ∧ IntervalHandle.fires ⟨0, healthIntervalMs⟩ 60000
    ∧ 60000 < 59000 + healthIntervalMs := by
  refine ⟨by decide, ⟨0, by norm_num [healthIntervalMs]⟩, by norm_num [healthIntervalMs]⟩

/-- C5, amended: a manual refresh runs the poll immediately but leaves the
automatic schedule exactly as it was; the next automatic tick occurs at its
originally scheduled time, which can fall less than a full interval after
the manual refresh. -/
theorem manualRefreshKeepsSchedule (isAuthenticated : Bool)
    (response : Option (List HealthEntry)) (c : HealthComponent) :
    ((manualHealthRefresh isAuthenticated response c).timer = c.timer)
    ∧ ((manualHealthRefresh isAuthenticated response c).state
        = (checkHealth isAuthenticated response c.state).1) :=
  ⟨rfl, rfl⟩

/-- C6: a failed execution fetch leaves the previously held window
untouched — it is never cleared — and, for a failure carrying a nonempty
message, sets the exposed error state to that message. -/
theorem fetchFailureKeepsWindow (filterValue : String) (expanded : Bool) (now : Int)
    (message : Option String) (m : String) (s : FeedState) :
    ((fetchExecutions true filterValue expanded now (.err message) s).1.executions
      = s.executions)
    ∧ (m ≠ "" →
        (fetchExecutions true filterValue expanded now (.err (some m)) s).1.error
          = some m) := by
  constructor
  · rfl
  · intro hm
    simp [fetchExecutions, errMessageText, hm]

/-- Witness for C6: a fetch failing with message "Network Error" keeps the
mock window and exposes that message. -/
theorem fetchFailureKeepsWindow_witness :
    ((fetchExecutions true "all" false 0 (.err (some "Network Error"))
        ⟨mockExecutions 0, false, none⟩).1.executions = mockExecutions 0)
    ∧ ((fetchExecutions true "all" false 0 (.err (some "Network Error"))
        ⟨mockExecutions 0, false, none⟩).1.error = some "Network Error") :=
  ⟨(fetchFailureKeepsWindow "all" false 0 (some "Network Error") "Network Error"
      ⟨mockExecutions 0, false, none⟩).1,
   (fetchFailureKeepsWindow "all" false 0 (some "Network Error") "Network Error"
      ⟨mockExecutions 0, false, none⟩).2 (by decide)⟩

/-- C7: at the failing input — filter "error", window size 10, backend
returning exactly two error records — the feed issues the request with
status "error" and limit 10 but exposes the single mock record with id 4,
not the two backend records; and under filter "all" the exposed window is
not ordered newest-first: the first record is older than the second. -/
theorem errorFilterFetchIgnoresBackend :
    (((fetchExecutions true "error" false 7200000
        (.ok [⟨"e1", "wf-9", "Backend A", "error", 7199000, some 10, "trigger"⟩,
              ⟨"e2", "wf-9", "Backend B", "error", 7198000, some 20, "trigger"⟩])
        ⟨[], false, none⟩).1.executions.map ExecutionItem.id) = ["4"])
    ∧ ((fetchExecutions true "error" false 7200000
        (.ok [⟨"e1", "wf-9", "Backend A", "error", 7199000, some 10, "trigger"⟩,
              ⟨"e2", "wf-9", "Backend B", "error", 7198000, some 20, "trigger"⟩])
        ⟨[], false, none⟩).2 = [⟨some "error", 10⟩])
    ∧ ((⟨"e1", "wf-9", "Backend A", "error", 7199000, some 10, "trigger"⟩ : ExecutionItem)
        ∉ (fetchExecutions true "error" false 7200000
        (.ok [⟨"e1", "wf-9", "Backend A", "error", 7199000, some 10, "trigger"⟩,
              ⟨"e2", "wf-9", "Backend B", "error", 7198000, some 20, "trigger"⟩])
        ⟨[], false, none⟩).1.executions)
    ∧ (((fetchExecutions true "all" false 7200000 (.ok []) ⟨[], false, none⟩).1.executions.map
          ExecutionItem.startedAt).get? 0 = some 6900000)
    ∧ (((fetchExecutions true "all" false 7200000 (.ok []) ⟨[], false, none⟩).1.executions.map
          ExecutionItem.startedAt).get? 1 = some 7080000)
    ∧ ((6900000 : Int) < 7080000) := by
  decide

/-- C8: the health poll interval is 60 time units of 1000 ms and the feed
interval 10 such units; the health effect starts its timer with the 60000 ms
period; and toggling the feed's autoRefresh flag flips that flag and stops
or restarts only the feed's own timer, leaving the health component — state
and timer — exactly as it was. -/
theorem independentSchedules (isAuthenticated : Bool) (t : Nat) (now : Int)
    (response : ExecResponse) (hresponse : Option (List HealthEntry))
    (app : AppComponents) (hc : HealthComponent) :
    healthIntervalMs = 60 * 1000
    ∧ feedIntervalMs = 10 * 1000
    ∧ ((runHealthEffect isAuthenticated hresponse t hc).timer
        = some ⟨t, healthIntervalMs⟩)
    ∧ ((appToggleAutoRefresh isAuthenticated t now response app).health = app.health)
    ∧ ((appToggleAutoRefresh isAuthenticated t now response app).feed.timer
        = if app.feed.autoRefresh then none else some ⟨t, feedIntervalMs⟩)
    ∧ ((appToggleAutoRefresh isAuthenticated t now response app).feed.autoRefresh
        = !app.feed.autoRefresh) := by
  refine ⟨rfl, rfl, rfl, rfl, ?_, rfl⟩
  cases h : app.feed.autoRefresh <;>
    simp [appToggleAutoRefresh, toggleAutoRefresh, runFeedEffect, h]

/-- C9, counterexample: two successful fetches with the same filter, the
same expanded flag and byte-identical backend responses expose different
windows when performed at different clock instants — the window is not a
function of the filter alone. -/
theorem windowDependsOnClock :
    (fetchExecutions true "all" false 3600000 (.ok []) ⟨[], false, none⟩).1.executions
      ≠ (fetchExecutions true "all" false 7200000 (.ok []) ⟨[], false, none⟩).1.executions := by
  decide

/-- C9, amended: after a successful fetch the exposed window is a
deterministic function of the filter and the clock instant alone; it does
not depend on the backend response data, the expanded flag, or any prior
feed state. -/
theorem windowIndependentOfResponse (filterValue : String) (e1 e2 : Bool) (now : Int)
    (l1 l2 : List ExecutionItem) (s1 s2 : FeedState) :
    (fetchExecutions true filterValue e1 now (.ok l1) s1).1.executions
      = (fetchExecutions true filterValue e2 now (.ok l2) s2).1.executions :=
  rfl

/-- C10: when the user is not authenticated, a health check returns at once
issuing no backend call and leaving the snapshot unchanged, an execution
fetch does the same for the window, `IntegrationStatus` renders nothing and
`ExecutionMonitor` renders only the login-required card with no data. -/
theorem unauthenticatedNoEffect (response : Option (List HealthEntry))
    (s : HealthState) (filterValue : String) (expanded : Bool) (now : Int)
    (r : ExecResponse) (fs : FeedState) :
    checkHealth false response s = (s, false)
    ∧ fetchExecutions false filterValue expanded now r fs = (fs, [])
    ∧ renderIntegrationStatus false s = none
    ∧ renderExecutionMonitor false fs = .loginRequired :=
  ⟨rfl, rfl, rfl, rfl⟩

end NkzModule
